import Mathlib

/-!
# Verification of the encog-js Resilient Propagation weight-update strategy

Shallow embedding of `src/src/utils/dataToolbox.js` (second concatenated
module: `ResilientPropagation extends Propagation`).  JavaScript numbers are
idealised as exact rationals `ℚ`; the per-weight arrays (`updateValues`,
`lastDelta`, `lastWeightChange`, and the caller-owned `lastGradient` array
that every update method mutates in place) are modelled as functions
`ℕ → ℚ` updated pointwise with `Function.update`.  A thrown
`NeuralNetworkError` or `ReferenceError` is modelled with `Except String`.
-/

namespace EncogRProp

/-- The default zero tolerance (source line: `DEFAULT_ZERO_TOLERANCE = 0.00000000000000001`). -/
def DEFAULT_ZERO_TOLERANCE : ℚ := 1 / 100000000000000000

/-- Source constant `POSITIVE_ETA = 1.2`. -/
def POSITIVE_ETA : ℚ := 12 / 10

/-- Source constant `NEGATIVE_ETA = 0.5`. -/
def NEGATIVE_ETA : ℚ := 1 / 2

/-- Source constant `DELTA_MIN = 1e-6`. -/
def DELTA_MIN : ℚ := 1 / 1000000

/-- Source constant `DEFAULT_INITIAL_UPDATE = 0.1`. -/
def DEFAULT_INITIAL_UPDATE : ℚ := 1 / 10

/-- Source constant `DEFAULT_MAX_STEP = 50`. -/
def DEFAULT_MAX_STEP : ℚ := 50

/-- The `RPROPType` string-constant object of the source. -/
def RPROPTypep : String := "RPROPp"

/-- The tag `RPROPType.RPROPm`. -/
def RPROPTypem : String := "RPROPm"

/-- The tag `RPROPType.iRPROPp`. -/
def iRPROPTypep : String := "iRPROPp"

/-- The tag `RPROPType.iRPROPm`. -/
def iRPROPTypem : String := "iRPROPm"

/-- The tag `RPROPType.ARPROP`. -/
def ARPROPType : String := "ARPROP"

/-- Modelled from the spec: `EncogMath.sign` (the file `mathUtils/encogMath.js`
is not under `src/`; the spec and the source doc comment describe
`zeroTolerance` as "How close to zero can a number be to be considered zero",
default `1e-17`).  A value within the zero tolerance has sign `0`; otherwise
the sign is `1` for positive and `-1` for negative values. -/
def sign (value : ℚ) : ℚ :=
  if |value| < DEFAULT_ZERO_TOLERANCE then 0
  else if value > 0 then 1 else -1

/-- The mutable state read or written by `ResilientPropagation.updateWeight`
and its helpers.  Instance fields of the JS object are modelled directly;
`lastGradient` is the caller-owned array argument that the update methods
mutate in place (threaded here as part of the state); `lastError : Option ℚ`
uses `none` for the initial `Number.POSITIVE_INFINITY`; `q` is the instance
field `this.q` set by the constructor; `globalQ` models the *free* identifier
`q` referenced by `updateJacobiWeight` (`none` = undeclared: a JS class body
is strict-mode code, so reading or assigning an undeclared `q` throws a
`ReferenceError`). -/
structure RPropState where
  updateValues : ℕ → ℚ
  lastDelta : ℕ → ℚ
  lastWeightChange : ℕ → ℚ
  lastGradient : ℕ → ℚ
  rpropType : String
  maxStep : ℚ
  zeroTolerance : ℚ
  error : ℚ
  lastError : Option ℚ
  q : ℚ
  globalQ : Option ℚ

/-- The comparison `this.error > this.lastError` where `lastError` starts at `+Infinity`
(`none`): any comparison against `+Infinity` is false. -/
def errorExceedsLast (s : RPropState) : Bool :=
  match s.lastError with
  | none => false
  | some le => decide (le < s.error)

/-- The method `ResilientPropagation.updateWeightPlus` (source lines 345-378):
classic RPROP+ with weight back-tracking. -/
def updateWeightPlus (gradients : ℕ → ℚ) (index : ℕ) (s : RPropState) :
    ℚ × RPropState :=
  let change := sign (gradients index * s.lastGradient index)
  if change > 0 then
    let delta := min (s.updateValues index * POSITIVE_ETA) s.maxStep
    let weightChange := sign (gradients index) * delta
    (weightChange,
      { s with
        updateValues := Function.update s.updateValues index delta
        lastGradient := Function.update s.lastGradient index (gradients index) })
  else if change < 0 then
    let delta := max (s.updateValues index * NEGATIVE_ETA) DELTA_MIN
    (-(s.lastWeightChange index),
      { s with
        updateValues := Function.update s.updateValues index delta
        lastGradient := Function.update s.lastGradient index 0 })
  else
    (sign (gradients index) * s.updateValues index,
      { s with
        lastGradient := Function.update s.lastGradient index (gradients index) })

/-- The method `ResilientPropagation.updateWeightMinus` (source lines 386-411):
RPROP- without weight back-tracking; `lastDelta` is the authoritative step. -/
def updateWeightMinus (gradients : ℕ → ℚ) (index : ℕ) (s : RPropState) :
    ℚ × RPropState :=
  let change := sign (gradients index * s.lastGradient index)
  let delta :=
    if change > 0 then min (s.lastDelta index * POSITIVE_ETA) s.maxStep
    else max (s.lastDelta index * NEGATIVE_ETA) DELTA_MIN
  (sign (gradients index) * delta,
    { s with
      lastGradient := Function.update s.lastGradient index (gradients index)
      lastDelta := Function.update s.lastDelta index delta })

/-- The method `ResilientPropagation.updateiWeightPlus` (source lines 419-457):
iRPROP+ — on reversal the previous step is undone only when the current
error exceeds the previous iteration's error. -/
def updateiWeightPlus (gradients : ℕ → ℚ) (index : ℕ) (s : RPropState) :
    ℚ × RPropState :=
  let change := sign (gradients index * s.lastGradient index)
  if change > 0 then
    let delta := min (s.updateValues index * POSITIVE_ETA) s.maxStep
    let weightChange := sign (gradients index) * delta
    (weightChange,
      { s with
        updateValues := Function.update s.updateValues index delta
        lastGradient := Function.update s.lastGradient index (gradients index) })
  else if change < 0 then
    let delta := max (s.updateValues index * NEGATIVE_ETA) DELTA_MIN
    let weightChange := if errorExceedsLast s then -(s.lastWeightChange index) else 0
    (weightChange,
      { s with
        updateValues := Function.update s.updateValues index delta
        lastGradient := Function.update s.lastGradient index 0 })
  else
    (sign (gradients index) * s.updateValues index,
      { s with
        lastGradient := Function.update s.lastGradient index (gradients index) })

/-- The method `ResilientPropagation.updateiWeightMinus` (source lines 465-491).
The source writes `lastGradient[index] = 0` inside the shrink branch
(line 482) and then *unconditionally* writes
`lastGradient[index] = gradients[index]` (line 485); both writes are kept
here, the second overwriting the first. -/
def updateiWeightMinus (gradients : ℕ → ℚ) (index : ℕ) (s : RPropState) :
    ℚ × RPropState :=
  let change := sign (gradients index * s.lastGradient index)
  let step1 :=
    if change > 0 then
      (min (s.lastDelta index * POSITIVE_ETA) s.maxStep, s.lastGradient)
    else
      (max (s.lastDelta index * NEGATIVE_ETA) DELTA_MIN,
        Function.update s.lastGradient index 0)
  let delta := step1.1
  let lg := Function.update step1.2 index (gradients index)
  (sign (gradients index) * delta,
    { s with
      lastGradient := lg
      lastDelta := Function.update s.lastDelta index delta })

/-- The method `ResilientPropagation.updateJacobiWeight` (source lines 499-539): ARPROP.
The structural part matches `updateWeightPlus`; afterwards the source reads
and writes the *free* identifier `q` (`q++` when the error got worse,
`q = 1` otherwise) — never `this.q`.  In a strict-mode class body both the
read and the assignment throw `ReferenceError` while `q` is undeclared
(`globalQ = none`); mutations made before the throw are discarded by the
`Except.error` result, which aborts the iteration anyway. -/
def updateJacobiWeight (gradients : ℕ → ℚ) (index : ℕ) (s : RPropState) :
    Except String (ℚ × RPropState) :=
  let change := sign (gradients index * s.lastGradient index)
  let structural : ℚ × ℚ × RPropState :=
    if change > 0 then
      let delta := min (s.updateValues index * POSITIVE_ETA) s.maxStep
      (sign (gradients index) * delta, delta,
        { s with
          updateValues := Function.update s.updateValues index delta
          lastGradient := Function.update s.lastGradient index (gradients index) })
    else if change < 0 then
      let delta := max (s.updateValues index * NEGATIVE_ETA) DELTA_MIN
      (-(s.lastWeightChange index), delta,
        { s with
          updateValues := Function.update s.updateValues index delta
          lastGradient := Function.update s.lastGradient index 0 })
    else
      (sign (gradients index) * s.updateValues index, s.updateValues index,
        { s with
          lastGradient := Function.update s.lastGradient index (gradients index) })
  let weightChange := structural.1
  let delta := structural.2.1
  let s1 := structural.2.2
  if errorExceedsLast s then
    match s1.globalQ with
    | none => .error "ReferenceError: q is not defined"
    | some qv => .ok (1 / (2 * qv) * delta, { s1 with globalQ := some (qv + 1) })
  else
    match s1.globalQ with
    | none => .error "ReferenceError: q is not defined"
    | some _ => .ok (weightChange, { s1 with globalQ := some 1 })

/-- The method `ResilientPropagation.updateWeight` (source lines 309-337): the dropout
guard, the dispatch on the `rpropType` string (an unknown tag throws
`NeuralNetworkError`), and the final `lastWeightChange[index] = weightChange`
write. -/
def updateWeight (gradients : ℕ → ℚ) (index : ℕ) (dropoutRate : ℚ)
    (s : RPropState) : Except String (ℚ × RPropState) :=
  if dropoutRate > 0 then .ok (0, s)
  else
    let res : Except String (ℚ × RPropState) :=
      if s.rpropType = RPROPTypep then .ok (updateWeightPlus gradients index s)
      else if s.rpropType = RPROPTypem then .ok (updateWeightMinus gradients index s)
      else if s.rpropType = iRPROPTypep then .ok (updateiWeightPlus gradients index s)
      else if s.rpropType = iRPROPTypem then .ok (updateiWeightMinus gradients index s)
      else if s.rpropType = ARPROPType then updateJacobiWeight gradients index s
      else .error ("Unknown RPROP type: " ++ s.rpropType)
    match res with
    | .ok (wc, s1) =>
        .ok (wc, { s1 with lastWeightChange := Function.update s1.lastWeightChange index wc })
    | .error e => .error e

/-- The `ResilientPropagation` constructor (source lines 279-304): every
`updateValues[i] = initialUpdate`, every `lastDelta[i] = 0`, the
`lastWeightChange` array is freshly zero-allocated
(`ArrayUtils.newFloatArray`, modelled from the spec as zero-filled, the
file is not under `src/`), `rpropType` is hard-coded to `RPROPp` (the
constructor takes no variant tag), `lastError = +Infinity`, `this.q = 1`.
The caller-owned `lastGradient` array of the `Propagation` base starts
zero-filled, and the free identifier `q` is undeclared. -/
def mkResilientPropagation (initialUpdate maxStep : ℚ) : RPropState :=
  { updateValues := fun _ => initialUpdate
    lastDelta := fun _ => 0
    lastWeightChange := fun _ => 0
    lastGradient := fun _ => 0
    rpropType := RPROPTypep
    maxStep := maxStep
    zeroTolerance := DEFAULT_ZERO_TOLERANCE
    error := 0
    lastError := none
    q := 1
    globalQ := none }

/-- The default-parameter construction, with the `rpropType` field afterwards
set to the requested variant tag (in the source the field is assigned on the
instance; the constructor itself offers no tag parameter). -/
def mkWithType (tag : String) : RPropState :=
  { mkResilientPropagation DEFAULT_INITIAL_UPDATE DEFAULT_MAX_STEP with rpropType := tag }

/-- The variants whose authoritative step-size array is `lastDelta`
(RPROP- and iRPROP-); the others use `updateValues`. -/
def usesLastDelta (tag : String) : Prop :=
  tag = RPROPTypem ∨ tag = iRPROPTypem

instance (tag : String) : Decidable (usesLastDelta tag) := by
  unfold usesLastDelta; infer_instance

/-- The authoritative step-size entry of the variant `tag` for weight `i`:
`lastDelta i` for RPROPm/iRPROPm, `updateValues i` for the others. -/
def authStep (tag : String) (s : RPropState) (i : ℕ) : ℚ :=
  if usesLastDelta tag then s.lastDelta i else s.updateValues i

/-- All states the trainer can drive the strategy into for a fixed variant
tag: the freshly constructed default state, any number of `updateWeight`
calls (arbitrary gradients, index and dropout rate, keeping only calls that
return normally), and environment steps in which the `Propagation` base
overwrites the scalar `error` / `lastError` bookkeeping between iterations. -/
inductive Reachable (tag : String) : RPropState → Prop
  | init : Reachable tag (mkWithType tag)
  | step (s : RPropState) (g : ℕ → ℚ) (i : ℕ) (d wc : ℚ) (s1 : RPropState) :
      Reachable tag s → updateWeight g i d s = .ok (wc, s1) → Reachable tag s1
  | env (s : RPropState) (e : ℚ) (le : Option ℚ) :
      Reachable tag s → Reachable tag { s with error := e, lastError := le }

/-- The inductive invariant behind the step-clamping claim: the tag is
stable, `maxStep` keeps its default `50`, the free identifier `q` stays
undeclared, every `updateValues` entry stays inside `[DELTA_MIN, 50]`, and
(for the minus variants, whose authoritative array is `lastDelta`) each
`lastDelta` entry is either still untouched (`0`, with its `lastGradient`
entry also still `0`) or inside `[DELTA_MIN, 50]`. -/
def stepInv (tag : String) (s : RPropState) : Prop :=
  s.rpropType = tag ∧ s.maxStep = DEFAULT_MAX_STEP ∧ s.globalQ = none ∧
    (∀ j, DELTA_MIN ≤ s.updateValues j ∧ s.updateValues j ≤ DEFAULT_MAX_STEP) ∧
    (usesLastDelta tag →
      ∀ j, (s.lastDelta j = 0 ∧ s.lastGradient j = 0) ∨
        (DELTA_MIN ≤ s.lastDelta j ∧ s.lastDelta j ≤ DEFAULT_MAX_STEP))

/-- The weight change of a normally returning `updateWeight` call
(`0` for a thrown error, which aborts the iteration). -/
def wcOf (r : Except String (ℚ × RPropState)) : ℚ :=
  match r with
  | .ok p => p.1
  | .error _ => 0

/-- The post-state of a normally returning `updateWeight` call (the given
default for a thrown error). -/
def stOf (r : Except String (ℚ × RPropState)) (dflt : RPropState) : RPropState :=
  match r with
  | .ok p => p.2
  | .error _ => dflt

/-- Whether an `updateWeight` call returned normally. -/
def isOkb (r : Except String (ℚ × RPropState)) : Bool :=
  match r with
  | .ok _ => true
  | .error _ => false

/-- The constant all-ones gradient array used by the concrete scenarios. -/
def scenarioGrad : ℕ → ℚ := fun _ => 1

/-- RPROPp scenario, initial state (construction defaults). -/
def rproppState0 : RPropState := mkWithType RPROPTypep

/-- RPROPp scenario after the first `updateWeight` call with gradient `1`. -/
def rproppState1 : RPropState :=
  { rproppState0 with
    lastGradient := Function.update rproppState0.lastGradient 0 1
    lastWeightChange := Function.update rproppState0.lastWeightChange 0 (1/10) }

/-- RPROPp scenario after the second `updateWeight` call with gradient `1`. -/
def rproppState2 : RPropState :=
  { rproppState1 with
    updateValues := Function.update rproppState1.updateValues 0 (12/100)
    lastGradient := Function.update rproppState1.lastGradient 0 1
    lastWeightChange := Function.update rproppState1.lastWeightChange 0 (12/100) }

/-- A mid-training RPROPm state about to see a sign reversal at weight `0`:
previous gradient `-1`, current step size `1/10`, previous change `1/10`. -/
def rpropmRevState : RPropState :=
  { mkWithType RPROPTypem with
    lastGradient := Function.update (fun _ => 0) 0 (-1)
    lastDelta := Function.update (fun _ => 0) 0 (1/10)
    lastWeightChange := Function.update (fun _ => 0) 0 (1/10) }

/-- The RPROPm reversal result state. -/
def rpropmRevState1 : RPropState :=
  { rpropmRevState with
    lastGradient := Function.update rpropmRevState.lastGradient 0 1
    lastDelta := Function.update rpropmRevState.lastDelta 0 (1/20)
    lastWeightChange := Function.update rpropmRevState.lastWeightChange 0 (1/20) }

/-- A mid-training iRPROPm state about to see a sign reversal at weight `0`. -/
def irpropmRevState : RPropState :=
  { mkWithType iRPROPTypem with
    lastGradient := Function.update (fun _ => 0) 0 (-1)
    lastDelta := Function.update (fun _ => 0) 0 (1/10) }

/-- The iRPROPm reversal result state: the source's `lastGradient[0] = 0`
write is immediately overwritten with the current gradient `1`. -/
def irpropmRevState1 : RPropState :=
  { irpropmRevState with
    lastGradient :=
      Function.update (Function.update irpropmRevState.lastGradient 0 0) 0 1
    lastDelta := Function.update irpropmRevState.lastDelta 0 (1/20)
    lastWeightChange := Function.update irpropmRevState.lastWeightChange 0 (1/20) }

/-- An ARPROP state in which the current error `1` exceeds the previous
error `0` (and, with a declared global `q = 1`, a state breaking the sign
rule: previous gradient `-1` matching a current gradient `-1`). -/
def arpropWorseState : RPropState :=
  { mkWithType ARPROPType with error := 1, lastError := some 0 }

/-- State `arpropWorseState` with the free identifier `q` declared and set to `1`
(as if some foreign code had created a global `q`), and a sign-retaining
negative gradient history at weight `0`. -/
def arpropDeclaredQState : RPropState :=
  { arpropWorseState with
    globalQ := some 1
    lastGradient := Function.update (fun _ => 0) 0 (-1) }

/-- The all-`(-1)` gradient array. -/
def negGrad : ℕ → ℚ := fun _ => (-1)

/-- The result state of the ARPROP call on `arpropDeclaredQState` with
gradient `-1`: the structural RPROP+ part grows the step to `0.12` and
computes `-0.12`, but the worsened error overrides the returned change with
`(1/(2*1)) * 0.12 = 0.06` and increments the global `q` to `2`. -/
def arpropDeclaredQState1 : RPropState :=
  { arpropDeclaredQState with
    updateValues := Function.update arpropDeclaredQState.updateValues 0 (12/100)
    lastGradient := Function.update arpropDeclaredQState.lastGradient 0 (-1)
    lastWeightChange :=
      Function.update arpropDeclaredQState.lastWeightChange 0 (6/100)
    globalQ := some 2 }

/-- The all-zero gradient array. -/
def zeroGrad : ℕ → ℚ := fun _ => 0

/-- A mid-training iRPROPp state about to see a sign reversal at weight `0`
while the error got worse (`1 > 0`). -/
def irproppRevState : RPropState :=
  { mkWithType iRPROPTypep with
    error := 1
    lastError := some 0
    lastGradient := Function.update (fun _ => 0) 0 (-1)
    lastWeightChange := Function.update (fun _ => 0) 0 (3/10) }

/-! ## Basic facts about the constants, the sign function and clamping -/

theorem delta_min_pos : (0:ℚ) < DELTA_MIN := by norm_num [DELTA_MIN]

theorem tol_lt_delta_min : DEFAULT_ZERO_TOLERANCE < DELTA_MIN := by
  norm_num [DEFAULT_ZERO_TOLERANCE, DELTA_MIN]

theorem sign_eq_zero_of_small (x : ℚ) (h : |x| < DEFAULT_ZERO_TOLERANCE) :
    sign x = 0 := by
  rw [sign, if_pos h]

theorem sign_zero : sign 0 = 0 := by
  refine sign_eq_zero_of_small 0 ?_
  norm_num [DEFAULT_ZERO_TOLERANCE]

theorem sign_eq_one (x : ℚ) (h1 : ¬ |x| < DEFAULT_ZERO_TOLERANCE) (h2 : x > 0) :
    sign x = 1 := by
  rw [sign, if_neg h1, if_pos h2]

theorem sign_eq_neg_one (x : ℚ) (h1 : ¬ |x| < DEFAULT_ZERO_TOLERANCE)
    (h2 : ¬ x > 0) : sign x = -1 := by
  rw [sign, if_neg h1, if_neg h2]

/-- Multiplying a step of size at least `DELTA_MIN` by the sign of a value
yields a weight change of exactly that sign. -/
theorem sign_mul_delta (x d : ℚ) (hd : DELTA_MIN ≤ d) :
    sign (sign x * d) = sign x := by
  have hd0 : (0:ℚ) < d := lt_of_lt_of_le delta_min_pos hd
  have htol : ¬ |d| < DEFAULT_ZERO_TOLERANCE := by
    rw [abs_of_pos hd0]
    push_neg
    exact le_trans tol_lt_delta_min.le hd
  by_cases h1 : |x| < DEFAULT_ZERO_TOLERANCE
  · rw [sign_eq_zero_of_small x h1, zero_mul, sign_zero]
  · by_cases h2 : x > 0
    · rw [sign_eq_one x h1 h2, one_mul, sign_eq_one d htol hd0]
    · rw [sign_eq_neg_one x h1 h2, neg_one_mul]
      have hneg : ¬ |(-d)| < DEFAULT_ZERO_TOLERANCE := by rwa [abs_neg]
      rw [sign_eq_neg_one (-d) hneg (not_lt.mpr (by linarith))]

theorem grow_clamp_lower (u m : ℚ) (hu : DELTA_MIN ≤ u) (hm : DELTA_MIN ≤ m) :
    DELTA_MIN ≤ min (u * POSITIVE_ETA) m := by
  refine le_min ?_ hm
  have hu0 : (0:ℚ) ≤ u := le_trans delta_min_pos.le hu
  have hgrow : u ≤ u * POSITIVE_ETA := by
    simp only [POSITIVE_ETA]
    linarith
  linarith

theorem grow_clamp_upper (u m : ℚ) : min (u * POSITIVE_ETA) m ≤ m :=
  min_le_right _ _

theorem shrink_clamp_lower (u : ℚ) :
    DELTA_MIN ≤ max (u * NEGATIVE_ETA) DELTA_MIN :=
  le_max_right _ _

theorem shrink_clamp_upper (u m : ℚ) (hu0 : 0 ≤ u) (hum : u ≤ m)
    (hm : DELTA_MIN ≤ m) : max (u * NEGATIVE_ETA) DELTA_MIN ≤ m := by
  refine max_le ?_ hm
  simp only [NEGATIVE_ETA]
  linarith

/-! ## Dispatch lemmas: `updateWeight` with `dropoutRate = 0` routes to the
variant selected by the `rpropType` tag and then records the returned
change into `lastWeightChange[index]`. -/

theorem updateWeight_plus_dispatch (g : ℕ → ℚ) (i : ℕ) (d : ℚ)
    (s : RPropState) (hd : ¬ d > 0) (h : s.rpropType = RPROPTypep) :
    updateWeight g i d s =
      .ok ((updateWeightPlus g i s).1,
        { (updateWeightPlus g i s).2 with
          lastWeightChange :=
            Function.update (updateWeightPlus g i s).2.lastWeightChange i
              (updateWeightPlus g i s).1 }) := by
  simp [updateWeight, h, hd, RPROPTypep]

theorem updateWeight_minus_dispatch (g : ℕ → ℚ) (i : ℕ) (d : ℚ)
    (s : RPropState) (hd : ¬ d > 0) (h : s.rpropType = RPROPTypem) :
    updateWeight g i d s =
      .ok ((updateWeightMinus g i s).1,
        { (updateWeightMinus g i s).2 with
          lastWeightChange :=
            Function.update (updateWeightMinus g i s).2.lastWeightChange i
              (updateWeightMinus g i s).1 }) := by
  simp [updateWeight, h, hd, RPROPTypep, RPROPTypem]

theorem updateWeight_iplus_dispatch (g : ℕ → ℚ) (i : ℕ) (d : ℚ)
    (s : RPropState) (hd : ¬ d > 0) (h : s.rpropType = iRPROPTypep) :
    updateWeight g i d s =
      .ok ((updateiWeightPlus g i s).1,
        { (updateiWeightPlus g i s).2 with
          lastWeightChange :=
            Function.update (updateiWeightPlus g i s).2.lastWeightChange i
              (updateiWeightPlus g i s).1 }) := by
  simp [updateWeight, h, hd, RPROPTypep, RPROPTypem, iRPROPTypep]

theorem updateWeight_iminus_dispatch (g : ℕ → ℚ) (i : ℕ) (d : ℚ)
    (s : RPropState) (hd : ¬ d > 0) (h : s.rpropType = iRPROPTypem) :
    updateWeight g i d s =
      .ok ((updateiWeightMinus g i s).1,
        { (updateiWeightMinus g i s).2 with
          lastWeightChange :=
            Function.update (updateiWeightMinus g i s).2.lastWeightChange i
              (updateiWeightMinus g i s).1 }) := by
  simp [updateWeight, h, hd, RPROPTypep, RPROPTypem, iRPROPTypep, iRPROPTypem]

theorem updateWeight_arprop_dispatch (g : ℕ → ℚ) (i : ℕ) (d : ℚ)
    (s : RPropState) (hd : ¬ d > 0) (h : s.rpropType = ARPROPType) :
    updateWeight g i d s =
      match updateJacobiWeight g i s with
      | .ok p =>
          .ok (p.1,
            { p.2 with
              lastWeightChange := Function.update p.2.lastWeightChange i p.1 })
      | .error e => .error e := by
  cases hres : updateJacobiWeight g i s with
  | ok p =>
      simp [updateWeight, h, hd, hres, RPROPTypep, RPROPTypem, iRPROPTypep,
        iRPROPTypem, ARPROPType]
  | error e =>
      simp [updateWeight, h, hd, hres, RPROPTypep, RPROPTypem, iRPROPTypep,
        iRPROPTypem, ARPROPType]

theorem updateWeight_unknown_dispatch (g : ℕ → ℚ) (i : ℕ) (d : ℚ)
    (s : RPropState) (hd : ¬ d > 0)
    (h1 : ¬ s.rpropType = RPROPTypep) (h2 : ¬ s.rpropType = RPROPTypem)
    (h3 : ¬ s.rpropType = iRPROPTypep) (h4 : ¬ s.rpropType = iRPROPTypem)
    (h5 : ¬ s.rpropType = ARPROPType) :
    updateWeight g i d s = .error ("Unknown RPROP type: " ++ s.rpropType) := by
  simp [updateWeight, hd, h1, h2, h3, h4, h5]

/-- While the free identifier `q` is undeclared, every `updateJacobiWeight`
call throws: one arm of the trailing `if` reads `q`, the other assigns to
it, and both are `ReferenceError`s in strict-mode code. -/
theorem jacobi_none_error (g : ℕ → ℚ) (i : ℕ) (s : RPropState)
    (hgq : s.globalQ = none) :
    updateJacobiWeight g i s = .error "ReferenceError: q is not defined" := by
  simp only [updateJacobiWeight]
  split_ifs <;> simp [hgq]

theorem uwp_fields (g : ℕ → ℚ) (i : ℕ) (s : RPropState) :
    (updateWeightPlus g i s).2.rpropType = s.rpropType ∧
    (updateWeightPlus g i s).2.maxStep = s.maxStep ∧
    (updateWeightPlus g i s).2.globalQ = s.globalQ ∧
    (updateWeightPlus g i s).2.lastDelta = s.lastDelta := by
  simp only [updateWeightPlus]
  split_ifs <;> simp

theorem uiwp_fields (g : ℕ → ℚ) (i : ℕ) (s : RPropState) :
    (updateiWeightPlus g i s).2.rpropType = s.rpropType ∧
    (updateiWeightPlus g i s).2.maxStep = s.maxStep ∧
    (updateiWeightPlus g i s).2.globalQ = s.globalQ ∧
    (updateiWeightPlus g i s).2.lastDelta = s.lastDelta := by
  simp only [updateiWeightPlus]
  split_ifs <;> simp

theorem uwm_fields (g : ℕ → ℚ) (i : ℕ) (s : RPropState) :
    (updateWeightMinus g i s).2.rpropType = s.rpropType ∧
    (updateWeightMinus g i s).2.maxStep = s.maxStep ∧
    (updateWeightMinus g i s).2.globalQ = s.globalQ ∧
    (updateWeightMinus g i s).2.updateValues = s.updateValues := by
  simp [updateWeightMinus]

theorem uiwm_fields (g : ℕ → ℚ) (i : ℕ) (s : RPropState) :
    (updateiWeightMinus g i s).2.rpropType = s.rpropType ∧
    (updateiWeightMinus g i s).2.maxStep = s.maxStep ∧
    (updateiWeightMinus g i s).2.globalQ = s.globalQ ∧
    (updateiWeightMinus g i s).2.updateValues = s.updateValues := by
  simp [updateiWeightMinus]

theorem uwp_uv_bounds (g : ℕ → ℚ) (i : ℕ) (s : RPropState)
    (hms : s.maxStep = DEFAULT_MAX_STEP)
    (huv : ∀ j, DELTA_MIN ≤ s.updateValues j ∧
      s.updateValues j ≤ DEFAULT_MAX_STEP) :
    ∀ j, DELTA_MIN ≤ (updateWeightPlus g i s).2.updateValues j ∧
      (updateWeightPlus g i s).2.updateValues j ≤ DEFAULT_MAX_STEP := by
  intro j
  have hdm : DELTA_MIN ≤ DEFAULT_MAX_STEP := by
    norm_num [DELTA_MIN, DEFAULT_MAX_STEP]
  simp only [updateWeightPlus]
  split_ifs with hc1 hc2
  · by_cases hj : j = i
    · subst hj
      simp only [Function.update_same, hms]
      exact ⟨grow_clamp_lower _ _ (huv j).1 hdm, grow_clamp_upper _ _⟩
    · simp only [Function.update_noteq hj]
      exact huv j
  · by_cases hj : j = i
    · subst hj
      simp only [Function.update_same]
      exact ⟨shrink_clamp_lower _,
        shrink_clamp_upper _ _ (le_trans delta_min_pos.le (huv j).1) (huv j).2 hdm⟩
    · simp only [Function.update_noteq hj]
      exact huv j
  · exact huv j

theorem uiwp_uv_bounds (g : ℕ → ℚ) (i : ℕ) (s : RPropState)
    (hms : s.maxStep = DEFAULT_MAX_STEP)
    (huv : ∀ j, DELTA_MIN ≤ s.updateValues j ∧
      s.updateValues j ≤ DEFAULT_MAX_STEP) :
    ∀ j, DELTA_MIN ≤ (updateiWeightPlus g i s).2.updateValues j ∧
      (updateiWeightPlus g i s).2.updateValues j ≤ DEFAULT_MAX_STEP := by
  intro j
  have hdm : DELTA_MIN ≤ DEFAULT_MAX_STEP := by
    norm_num [DELTA_MIN, DEFAULT_MAX_STEP]
  simp only [updateiWeightPlus]
  split_ifs with hc1 hc2 hce
  · by_cases hj : j = i
    · subst hj
      simp only [Function.update_same, hms]
      exact ⟨grow_clamp_lower _ _ (huv j).1 hdm, grow_clamp_upper _ _⟩
    · simp only [Function.update_noteq hj]
      exact huv j
  · by_cases hj : j = i
    · subst hj
      simp only [Function.update_same]
      exact ⟨shrink_clamp_lower _,
        shrink_clamp_upper _ _ (le_trans delta_min_pos.le (huv j).1) (huv j).2 hdm⟩
    · simp only [Function.update_noteq hj]
      exact huv j
  · by_cases hj : j = i
    · subst hj
      simp only [Function.update_same]
      exact ⟨shrink_clamp_lower _,
        shrink_clamp_upper _ _ (le_trans delta_min_pos.le (huv j).1) (huv j).2 hdm⟩
    · simp only [Function.update_noteq hj]
      exact huv j
  · exact huv j

theorem uwm_ld_bounds (g : ℕ → ℚ) (i : ℕ) (s : RPropState)
    (hms : s.maxStep = DEFAULT_MAX_STEP)
    (hld : ∀ j, (s.lastDelta j = 0 ∧ s.lastGradient j = 0) ∨
      (DELTA_MIN ≤ s.lastDelta j ∧ s.lastDelta j ≤ DEFAULT_MAX_STEP)) :
    (DELTA_MIN ≤ (updateWeightMinus g i s).2.lastDelta i ∧
      (updateWeightMinus g i s).2.lastDelta i ≤ DEFAULT_MAX_STEP) ∧
    ∀ j, ((updateWeightMinus g i s).2.lastDelta j = 0 ∧
        (updateWeightMinus g i s).2.lastGradient j = 0) ∨
      (DELTA_MIN ≤ (updateWeightMinus g i s).2.lastDelta j ∧
        (updateWeightMinus g i s).2.lastDelta j ≤ DEFAULT_MAX_STEP) := by
  have hdm : DELTA_MIN ≤ DEFAULT_MAX_STEP := by
    norm_num [DELTA_MIN, DEFAULT_MAX_STEP]
  have hi : DELTA_MIN ≤ (updateWeightMinus g i s).2.lastDelta i ∧
      (updateWeightMinus g i s).2.lastDelta i ≤ DEFAULT_MAX_STEP := by
    simp only [updateWeightMinus, Function.update_same]
    split_ifs with hc
    · rcases hld i with ⟨h0, hg0⟩ | ⟨hlo, hhi⟩
      · rw [hg0, mul_zero, sign_zero] at hc
        norm_num at hc
      · rw [hms]
        exact ⟨grow_clamp_lower _ _ hlo hdm, grow_clamp_upper _ _⟩
    · rcases hld i with ⟨h0, hg0⟩ | ⟨hlo, hhi⟩
      · rw [h0]
        exact ⟨shrink_clamp_lower _,
          shrink_clamp_upper 0 DEFAULT_MAX_STEP le_rfl
            (by norm_num [DEFAULT_MAX_STEP]) hdm⟩
      · exact ⟨shrink_clamp_lower _,
          shrink_clamp_upper _ _ (le_trans delta_min_pos.le hlo) hhi hdm⟩
  refine ⟨hi, ?_⟩
  intro j
  by_cases hj : j = i
  · subst hj
    right
    exact hi
  · simp only [updateWeightMinus, Function.update_noteq hj]
    exact hld j

theorem uiwm_ld_bounds (g : ℕ → ℚ) (i : ℕ) (s : RPropState)
    (hms : s.maxStep = DEFAULT_MAX_STEP)
    (hld : ∀ j, (s.lastDelta j = 0 ∧ s.lastGradient j = 0) ∨
      (DELTA_MIN ≤ s.lastDelta j ∧ s.lastDelta j ≤ DEFAULT_MAX_STEP)) :
    (DELTA_MIN ≤ (updateiWeightMinus g i s).2.lastDelta i ∧
      (updateiWeightMinus g i s).2.lastDelta i ≤ DEFAULT_MAX_STEP) ∧
    ∀ j, ((updateiWeightMinus g i s).2.lastDelta j = 0 ∧
        (updateiWeightMinus g i s).2.lastGradient j = 0) ∨
      (DELTA_MIN ≤ (updateiWeightMinus g i s).2.lastDelta j ∧
        (updateiWeightMinus g i s).2.lastDelta j ≤ DEFAULT_MAX_STEP) := by
  have hdm : DELTA_MIN ≤ DEFAULT_MAX_STEP := by
    norm_num [DELTA_MIN, DEFAULT_MAX_STEP]
  have hi : DELTA_MIN ≤ (updateiWeightMinus g i s).2.lastDelta i ∧
      (updateiWeightMinus g i s).2.lastDelta i ≤ DEFAULT_MAX_STEP := by
    simp only [updateiWeightMinus, Function.update_same]
    split_ifs with hc
    · rcases hld i with ⟨h0, hg0⟩ | ⟨hlo, hhi⟩
      · rw [hg0, mul_zero, sign_zero] at hc
        norm_num at hc
      · rw [hms]
        exact ⟨grow_clamp_lower _ _ hlo hdm, grow_clamp_upper _ _⟩
    · rcases hld i with ⟨h0, hg0⟩ | ⟨hlo, hhi⟩
      · rw [h0]
        exact ⟨shrink_clamp_lower _,
          shrink_clamp_upper 0 DEFAULT_MAX_STEP le_rfl
            (by norm_num [DEFAULT_MAX_STEP]) hdm⟩
      · exact ⟨shrink_clamp_lower _,
          shrink_clamp_upper _ _ (le_trans delta_min_pos.le hlo) hhi hdm⟩
  refine ⟨hi, ?_⟩
  intro j
  by_cases hj : j = i
  · subst hj
    right
    exact hi
  · simp only [updateiWeightMinus]
    split_ifs with hc
    · simp only [Function.update_noteq hj]
      exact hld j
    · simp only [Function.update_noteq hj]
      exact hld j

/-- The freshly constructed default state satisfies the step invariant. -/
theorem stepInv_init (tag : String) : stepInv tag (mkWithType tag) := by
  refine ⟨rfl, rfl, rfl, ?_, ?_⟩
  · intro j
    constructor <;>
      norm_num [mkWithType, mkResilientPropagation, DELTA_MIN,
        DEFAULT_INITIAL_UPDATE, DEFAULT_MAX_STEP]
  · intro _ j
    exact Or.inl ⟨rfl, rfl⟩

/-- Every normally returning `updateWeight` call preserves the step
invariant. -/
theorem stepInv_preserved (tag : String) (s : RPropState) (g : ℕ → ℚ) (i : ℕ)
    (d wc : ℚ) (s1 : RPropState) (hinv : stepInv tag s)
    (h : updateWeight g i d s = .ok (wc, s1)) : stepInv tag s1 := by
  obtain ⟨hrt, hms, hgq, huv, hld⟩ := hinv
  by_cases hd : d > 0
  · simp only [updateWeight, if_pos hd, Except.ok.injEq, Prod.mk.injEq] at h
    obtain ⟨-, h2⟩ := h
    subst h2
    exact ⟨hrt, hms, hgq, huv, hld⟩
  by_cases h1 : s.rpropType = RPROPTypep
  · rw [updateWeight_plus_dispatch g i d s hd h1] at h
    simp only [Except.ok.injEq, Prod.mk.injEq] at h
    obtain ⟨-, h2⟩ := h
    subst h2
    have hf := uwp_fields g i s
    have htag : tag = RPROPTypep := hrt.symm.trans h1
    refine ⟨hf.1.trans hrt, hf.2.1.trans hms, hf.2.2.1.trans hgq,
      uwp_uv_bounds g i s hms huv, ?_⟩
    intro hmin
    subst htag
    simp [usesLastDelta, RPROPTypep, RPROPTypem, iRPROPTypem] at hmin
  by_cases h2m : s.rpropType = RPROPTypem
  · rw [updateWeight_minus_dispatch g i d s hd h2m] at h
    simp only [Except.ok.injEq, Prod.mk.injEq] at h
    obtain ⟨-, hs1⟩ := h
    subst hs1
    have hf := uwm_fields g i s
    have htag : tag = RPROPTypem := hrt.symm.trans h2m
    have hb := uwm_ld_bounds g i s hms (hld (Or.inl htag))
    refine ⟨hf.1.trans hrt, hf.2.1.trans hms, hf.2.2.1.trans hgq, ?_, ?_⟩
    · intro j
      show DELTA_MIN ≤ (updateWeightMinus g i s).2.updateValues j ∧
        (updateWeightMinus g i s).2.updateValues j ≤ DEFAULT_MAX_STEP
      rw [hf.2.2.2]
      exact huv j
    · intro _ j
      exact hb.2 j
  by_cases h3 : s.rpropType = iRPROPTypep
  · rw [updateWeight_iplus_dispatch g i d s hd h3] at h
    simp only [Except.ok.injEq, Prod.mk.injEq] at h
    obtain ⟨-, hs1⟩ := h
    subst hs1
    have hf := uiwp_fields g i s
    have htag : tag = iRPROPTypep := hrt.symm.trans h3
    refine ⟨hf.1.trans hrt, hf.2.1.trans hms, hf.2.2.1.trans hgq,
      uiwp_uv_bounds g i s hms huv, ?_⟩
    intro hmin
    subst htag
    simp [usesLastDelta, iRPROPTypep, RPROPTypem, iRPROPTypem] at hmin
  by_cases h4 : s.rpropType = iRPROPTypem
  · rw [updateWeight_iminus_dispatch g i d s hd h4] at h
    simp only [Except.ok.injEq, Prod.mk.injEq] at h
    obtain ⟨-, hs1⟩ := h
    subst hs1
    have hf := uiwm_fields g i s
    have htag : tag = iRPROPTypem := hrt.symm.trans h4
    have hb := uiwm_ld_bounds g i s hms (hld (Or.inr htag))
    refine ⟨hf.1.trans hrt, hf.2.1.trans hms, hf.2.2.1.trans hgq, ?_, ?_⟩
    · intro j
      show DELTA_MIN ≤ (updateiWeightMinus g i s).2.updateValues j ∧
        (updateiWeightMinus g i s).2.updateValues j ≤ DEFAULT_MAX_STEP
      rw [hf.2.2.2]
      exact huv j
    · intro _ j
      exact hb.2 j
  by_cases h5 : s.rpropType = ARPROPType
  · rw [updateWeight_arprop_dispatch g i d s hd h5,
      jacobi_none_error g i s hgq] at h
    simp at h
  · rw [updateWeight_unknown_dispatch g i d s hd h1 h2m h3 h4 h5] at h
    simp at h

/-- Every reachable state satisfies the step invariant. -/
theorem stepInv_reachable (tag : String) (s : RPropState)
    (h : Reachable tag s) : stepInv tag s := by
  induction h with
  | init => exact stepInv_init tag
  | step s g i d wc s1 hr hup ih => exact stepInv_preserved tag s g i d wc s1 ih hup
  | env s e le hr ih =>
      obtain ⟨a, b, c, u, l⟩ := ih
      exact ⟨a, b, c, u, l⟩

theorem sign_trichotomy (x : ℚ) : sign x = 0 ∨ sign x = 1 ∨ sign x = -1 := by
  unfold sign
  split_ifs <;> simp

/-- The weight change computed by `updateWeightPlus`, by case on the sign
product. -/
theorem uwp_wc (g : ℕ → ℚ) (i : ℕ) (s : RPropState) :
    (updateWeightPlus g i s).1 =
      if sign (g i * s.lastGradient i) > 0 then
        sign (g i) * min (s.updateValues i * POSITIVE_ETA) s.maxStep
      else if sign (g i * s.lastGradient i) < 0 then
        -(s.lastWeightChange i)
      else sign (g i) * s.updateValues i := by
  simp only [updateWeightPlus]
  split_ifs <;> rfl

/-- The weight change computed by `updateiWeightPlus`, by case on the sign
product. -/
theorem uiwp_wc (g : ℕ → ℚ) (i : ℕ) (s : RPropState) :
    (updateiWeightPlus g i s).1 =
      if sign (g i * s.lastGradient i) > 0 then
        sign (g i) * min (s.updateValues i * POSITIVE_ETA) s.maxStep
      else if sign (g i * s.lastGradient i) < 0 then
        (if errorExceedsLast s then -(s.lastWeightChange i) else 0)
      else sign (g i) * s.updateValues i := by
  simp only [updateiWeightPlus]
  split_ifs <;> rfl

/-- The weight change computed by `updateWeightMinus` is always
`sign(gradient) * delta` with the freshly clamped `delta`. -/
theorem uwm_wc (g : ℕ → ℚ) (i : ℕ) (s : RPropState) :
    (updateWeightMinus g i s).1 =
      sign (g i) *
        (if sign (g i * s.lastGradient i) > 0 then
          min (s.lastDelta i * POSITIVE_ETA) s.maxStep
        else max (s.lastDelta i * NEGATIVE_ETA) DELTA_MIN) := by
  simp only [updateWeightMinus]

/-- The weight change computed by `updateiWeightMinus` is always
`sign(gradient) * delta` with the freshly clamped `delta`. -/
theorem uiwm_wc (g : ℕ → ℚ) (i : ℕ) (s : RPropState) :
    (updateiWeightMinus g i s).1 =
      sign (g i) *
        (if sign (g i * s.lastGradient i) > 0 then
          min (s.lastDelta i * POSITIVE_ETA) s.maxStep
        else max (s.lastDelta i * NEGATIVE_ETA) DELTA_MIN) := by
  simp only [updateiWeightMinus]
  split_ifs <;> rfl

/-- The clamped RPROPm/iRPROPm `delta` is at least `DELTA_MIN` whenever the
state is plausible (either the previous `lastDelta` entry is already at
least `DELTA_MIN`, or the previous gradient entry is still `0`, in which
case the grow branch cannot be taken). -/
theorem minus_delta_ge (g : ℕ → ℚ) (i : ℕ) (s : RPropState)
    (hms : DELTA_MIN ≤ s.maxStep)
    (hld : DELTA_MIN ≤ s.lastDelta i ∨ s.lastGradient i = 0) :
    DELTA_MIN ≤
      (if sign (g i * s.lastGradient i) > 0 then
        min (s.lastDelta i * POSITIVE_ETA) s.maxStep
      else max (s.lastDelta i * NEGATIVE_ETA) DELTA_MIN) := by
  split_ifs with hc
  · rcases hld with hld | hg0
    · exact grow_clamp_lower _ _ hld hms
    · rw [hg0, mul_zero, sign_zero] at hc
      norm_num at hc
  · exact shrink_clamp_lower _

/-! ## Claim theorems -/

/-- C2: for every RPROP variant and every sequence of `updateWeight` calls
from the default construction (`initialUpdate = 0.1`, `maxStep = 50`), after
every normally returning non-dropout update the variant's authoritative
step-size entry for the updated index (`updateValues[i]` for
RPROPp/iRPROPp/ARPROP, `lastDelta[i]` for RPROPm/iRPROPm) lies in the
closed interval `[DELTA_MIN, 50]`. -/
theorem rprop_step_size_clamped (tag : String) (s : RPropState)
    (hs : Reachable tag s) (g : ℕ → ℚ) (i : ℕ)
    (hok : isOkb (updateWeight g i 0 s) = true) :
    DELTA_MIN ≤ authStep tag (stOf (updateWeight g i 0 s) s) i ∧
      authStep tag (stOf (updateWeight g i 0 s) s) i ≤ DEFAULT_MAX_STEP := by
  obtain ⟨hrt, hms, hgq, huv, hld⟩ := stepInv_reachable tag s hs
  have hd : ¬ (0:ℚ) > 0 := by norm_num
  by_cases h1 : s.rpropType = RPROPTypep
  · have htag : tag = RPROPTypep := hrt.symm.trans h1
    subst htag
    have hnm : ¬ usesLastDelta RPROPTypep := by
      simp [usesLastDelta, RPROPTypep, RPROPTypem, iRPROPTypem]
    rw [updateWeight_plus_dispatch g i 0 s hd h1]
    simp only [stOf, authStep, if_neg hnm]
    exact uwp_uv_bounds g i s hms huv i
  by_cases h2m : s.rpropType = RPROPTypem
  · have htag : tag = RPROPTypem := hrt.symm.trans h2m
    subst htag
    have hm : usesLastDelta RPROPTypem := Or.inl rfl
    rw [updateWeight_minus_dispatch g i 0 s hd h2m]
    simp only [stOf, authStep, if_pos hm]
    exact (uwm_ld_bounds g i s hms (hld hm)).1
  by_cases h3 : s.rpropType = iRPROPTypep
  · have htag : tag = iRPROPTypep := hrt.symm.trans h3
    subst htag
    have hnm : ¬ usesLastDelta iRPROPTypep := by
      simp [usesLastDelta, iRPROPTypep, RPROPTypem, iRPROPTypem]
    rw [updateWeight_iplus_dispatch g i 0 s hd h3]
    simp only [stOf, authStep, if_neg hnm]
    exact uiwp_uv_bounds g i s hms huv i
  by_cases h4 : s.rpropType = iRPROPTypem
  · have htag : tag = iRPROPTypem := hrt.symm.trans h4
    subst htag
    have hm : usesLastDelta iRPROPTypem := Or.inr rfl
    rw [updateWeight_iminus_dispatch g i 0 s hd h4]
    simp only [stOf, authStep, if_pos hm]
    exact (uiwm_ld_bounds g i s hms (hld hm)).1
  by_cases h5 : s.rpropType = ARPROPType
  · rw [updateWeight_arprop_dispatch g i 0 s hd h5,
      jacobi_none_error g i s hgq] at hok
    simp [isOkb] at hok
  · rw [updateWeight_unknown_dispatch g i 0 s hd h1 h2m h3 h4 h5] at hok
    simp [isOkb] at hok

/-- C2 witness: the very first RPROPm update (gradient `1`, index `0`) on
the freshly constructed state puts `lastDelta[0] = DELTA_MIN ∈ [DELTA_MIN, 50]`. -/
theorem rprop_step_size_clamped_witness :
    DELTA_MIN ≤ authStep RPROPTypem
        (stOf (updateWeight scenarioGrad 0 0 (mkWithType RPROPTypem))
          (mkWithType RPROPTypem)) 0 ∧
      authStep RPROPTypem
        (stOf (updateWeight scenarioGrad 0 0 (mkWithType RPROPTypem))
          (mkWithType RPROPTypem)) 0 ≤ DEFAULT_MAX_STEP :=
  rprop_step_size_clamped RPROPTypem (mkWithType RPROPTypem) Reachable.init
    scenarioGrad 0
    (by rw [updateWeight_minus_dispatch scenarioGrad 0 0 (mkWithType RPROPTypem)
      (by norm_num) rfl]; rfl)

/-- C6 (code bug): the ARPROP override state is *not* the instance field
`this.q`.  The constructor sets `this.q = 1` ("Denominator for ARPROP
adaptive weight change"), but `updateJacobiWeight` reads and writes the
free identifier `q`, which is undeclared; in the strict-mode class body the
very first ARPROP update therefore throws a `ReferenceError` instead of
applying the `(1/(2q)) * delta` override — here at a state whose error `1`
exceeds the previous error `0`. -/
theorem arprop_q_reference_error :
    updateWeight scenarioGrad 0 0 arpropWorseState =
      .error "ReferenceError: q is not defined" ∧
    arpropWorseState.q = 1 ∧ arpropWorseState.globalQ = none := by
  refine ⟨?_, rfl, rfl⟩
  rw [updateWeight_arprop_dispatch scenarioGrad 0 0 arpropWorseState
      (by norm_num) rfl,
    jacobi_none_error scenarioGrad 0 arpropWorseState rfl]

/-- C7: a positive `dropoutRate` makes `updateWeight` return `0` without
touching any state, for every variant tag and every index. -/
theorem dropout_returns_zero (g : ℕ → ℚ) (i : ℕ) (d : ℚ) (s : RPropState)
    (hd : d > 0) : updateWeight g i d s = .ok (0, s) := by
  simp [updateWeight, hd]

/-- C7 witness at `dropoutRate = 1` on the default ARPROP-tagged state. -/
theorem dropout_returns_zero_witness :
    updateWeight scenarioGrad 0 1 (mkWithType ARPROPType) =
      .ok (0, mkWithType ARPROPType) :=
  dropout_returns_zero scenarioGrad 0 1 (mkWithType ARPROPType) (by norm_num)

/-- C8 counterexample: with the unrecognized tag `"bogus"` and
`dropoutRate = 1 > 0`, `updateWeight` returns `0` normally — the tag is
never consulted, so not *every* update call raises; and the constructor
performs no tag validation (it takes no tag parameter and hard-codes
`RPROPp`). -/
theorem unknown_type_counterexample :
    updateWeight scenarioGrad 0 1 (mkWithType "bogus") =
      .ok (0, mkWithType "bogus") ∧
    (mkResilientPropagation DEFAULT_INITIAL_UPDATE DEFAULT_MAX_STEP).rpropType
      = RPROPTypep := by
  constructor
  · norm_num [updateWeight]
  · rfl

/-- C8 amended: the constructor takes no variant tag (it always initializes
`rpropType` to `RPROPp`, so no construction-time rejection exists), and
with an unrecognized tag on the instance every `updateWeight` call whose
`dropoutRate` is not positive throws
`NeuralNetworkError("Unknown RPROP type: ...")`. -/
theorem unknown_type_amended (g : ℕ → ℚ) (i : ℕ) (d : ℚ) (s : RPropState)
    (hd : ¬ d > 0)
    (h1 : ¬ s.rpropType = RPROPTypep) (h2 : ¬ s.rpropType = RPROPTypem)
    (h3 : ¬ s.rpropType = iRPROPTypep) (h4 : ¬ s.rpropType = iRPROPTypem)
    (h5 : ¬ s.rpropType = ARPROPType) :
    updateWeight g i d s = .error ("Unknown RPROP type: " ++ s.rpropType) ∧
    (mkResilientPropagation DEFAULT_INITIAL_UPDATE DEFAULT_MAX_STEP).rpropType
      = RPROPTypep :=
  ⟨updateWeight_unknown_dispatch g i d s hd h1 h2 h3 h4 h5, rfl⟩

/-- C8 amended witness at tag `"bogus"`, `dropoutRate = 0`. -/
theorem unknown_type_amended_witness :
    updateWeight scenarioGrad 0 0 (mkWithType "bogus") =
      .error ("Unknown RPROP type: " ++ (mkWithType "bogus").rpropType) ∧
    (mkResilientPropagation DEFAULT_INITIAL_UPDATE DEFAULT_MAX_STEP).rpropType
      = RPROPTypep :=
  unknown_type_amended scenarioGrad 0 0 (mkWithType "bogus") (by norm_num)
    (by simp [mkWithType, mkResilientPropagation, RPROPTypep])
    (by simp [mkWithType, mkResilientPropagation, RPROPTypem])
    (by simp [mkWithType, mkResilientPropagation, iRPROPTypep])
    (by simp [mkWithType, mkResilientPropagation, iRPROPTypem])
    (by simp [mkWithType, mkResilientPropagation, ARPROPType])

/-- Evaluation: the first RPROPp call (gradient `1`, previous gradient `0`)
returns `+0.1` and records gradient and change. -/
theorem rpropp_first_eval :
    updateWeight scenarioGrad 0 0 rproppState0 = .ok (1/10, rproppState1) := by
  rw [updateWeight_plus_dispatch scenarioGrad 0 0 rproppState0 (by norm_num) rfl]
  norm_num [updateWeightPlus, rproppState0, rproppState1, mkWithType,
    mkResilientPropagation, sign, scenarioGrad, DEFAULT_ZERO_TOLERANCE,
    DEFAULT_INITIAL_UPDATE, DEFAULT_MAX_STEP]

/-- Evaluation: the second RPROPp call (gradient `1` again) grows the step
to `0.12` and returns `+0.12`. -/
theorem rpropp_second_eval :
    updateWeight scenarioGrad 0 0 rproppState1 = .ok (12/100, rproppState2) := by
  rw [updateWeight_plus_dispatch scenarioGrad 0 0 rproppState1 (by norm_num) rfl]
  norm_num [updateWeightPlus, rproppState0, rproppState1, rproppState2,
    mkWithType, mkResilientPropagation, sign, scenarioGrad,
    DEFAULT_ZERO_TOLERANCE, DEFAULT_INITIAL_UPDATE, DEFAULT_MAX_STEP,
    POSITIVE_ETA, min_def]

/-- C3 counterexample: on the default RPROPp state (`initialUpdate = 0.1`,
`lastGradient[0] = 0`), the first `updateWeight` call with gradient `+1.0`
returns `+0.1`, not the `-0.1` the claim states. -/
theorem rpropp_first_step_counterexample :
    updateWeight scenarioGrad 0 0 rproppState0 = .ok (1/10, rproppState1) ∧
    (1/10 : ℚ) ≠ -(1/10) :=
  ⟨rpropp_first_eval, by norm_num⟩

/-- C3 amended: the first call returns `+0.1` (`sign(gradient) *
initialUpdate`; the spec's `-0.1` presumes a negated-gradient convention
the code does not apply to the value handed in), and after the second call
with the same gradient the step `updateValues[0]` equals `0.1 * 1.2 = 0.12`. -/
theorem rpropp_scenario_amended :
    updateWeight scenarioGrad 0 0 rproppState0 = .ok (1/10, rproppState1) ∧
    updateWeight scenarioGrad 0 0 rproppState1 = .ok (12/100, rproppState2) ∧
    rproppState2.updateValues 0 = 12/100 :=
  ⟨rpropp_first_eval, rpropp_second_eval, by simp [rproppState2]⟩

/-- Evaluation: the iRPROPm reversal call (gradient `1` against previous
gradient `-1`) shrinks the step to `0.05` and leaves
`lastGradient[0] = 1`. -/
theorem irpropm_reversal_eval :
    updateWeight scenarioGrad 0 0 irpropmRevState = .ok (1/20, irpropmRevState1) := by
  rw [updateWeight_iminus_dispatch scenarioGrad 0 0 irpropmRevState
    (by norm_num) rfl]
  norm_num [updateiWeightMinus, irpropmRevState, irpropmRevState1, mkWithType,
    mkResilientPropagation, sign, scenarioGrad, DEFAULT_ZERO_TOLERANCE,
    NEGATIVE_ETA, DELTA_MIN, max_def]

/-- C4 (code bug): on an iRPROPm sign reversal the source's
`lastGradient[index] = 0` write (line 482) is dead — line 485 immediately
overwrites it with the current gradient.  At gradient `1` against previous
gradient `-1` the call returns normally and leaves `lastGradient[0] = 1`,
not the `0` that both the claim and the dead write intend. -/
theorem irpropm_lastGradient_not_reset :
    sign (scenarioGrad 0 * irpropmRevState.lastGradient 0) < 0 ∧
    updateWeight scenarioGrad 0 0 irpropmRevState = .ok (1/20, irpropmRevState1) ∧
    irpropmRevState1.lastGradient 0 = 1 ∧ (1:ℚ) ≠ 0 := by
  refine ⟨?_, irpropm_reversal_eval, ?_, by norm_num⟩
  · norm_num [scenarioGrad, irpropmRevState, mkWithType, mkResilientPropagation,
      sign, DEFAULT_ZERO_TOLERANCE]
  · simp [irpropmRevState1]

/-- C5: on an iRPROP+ sign reversal, `updateWeight` returns
`-lastWeightChange[i]` exactly when the current error exceeds the previous
iteration's error and `0` otherwise; in both cases the step shrinks by
`NEGATIVE_ETA` clamped to `DELTA_MIN`, `lastGradient[i]` is reset to `0`,
and the returned change is recorded into `lastWeightChange[i]`. -/
theorem irpropp_reversal_behavior (g : ℕ → ℚ) (i : ℕ) (s : RPropState)
    (ht : s.rpropType = iRPROPTypep)
    (hrev : sign (g i * s.lastGradient i) < 0) :
    updateWeight g i 0 s =
      .ok (if errorExceedsLast s then -(s.lastWeightChange i) else 0,
        { s with
          updateValues := Function.update s.updateValues i
            (max (s.updateValues i * NEGATIVE_ETA) DELTA_MIN)
          lastGradient := Function.update s.lastGradient i 0
          lastWeightChange := Function.update s.lastWeightChange i
            (if errorExceedsLast s then -(s.lastWeightChange i) else 0) }) := by
  have hnot : ¬ sign (g i * s.lastGradient i) > 0 := not_lt.mpr hrev.le
  rw [updateWeight_iplus_dispatch g i 0 s (by norm_num) ht]
  simp only [updateiWeightPlus, if_neg hnot, if_pos hrev]

/-- C5 witness: concrete reversal (`gradient 1` against previous `-1`) with
a worsened error (`1 > 0`), so the previous change `0.3` is undone. -/
theorem irpropp_reversal_behavior_witness :
    updateWeight scenarioGrad 0 0 irproppRevState =
      .ok (if errorExceedsLast irproppRevState
          then -(irproppRevState.lastWeightChange 0) else 0,
        { irproppRevState with
          updateValues := Function.update irproppRevState.updateValues 0
            (max (irproppRevState.updateValues 0 * NEGATIVE_ETA) DELTA_MIN)
          lastGradient := Function.update irproppRevState.lastGradient 0 0
          lastWeightChange := Function.update irproppRevState.lastWeightChange 0
            (if errorExceedsLast irproppRevState
              then -(irproppRevState.lastWeightChange 0) else 0) }) :=
  irpropp_reversal_behavior scenarioGrad 0 irproppRevState rfl
    (by norm_num [scenarioGrad, irproppRevState, mkWithType,
      mkResilientPropagation, sign, DEFAULT_ZERO_TOLERANCE])

theorem uwp_hidden (g : ℕ → ℚ) (i : ℕ) (s : RPropState) (z t : ℚ) :
    updateWeightPlus g i { s with zeroTolerance := z, q := t } =
      ((updateWeightPlus g i s).1,
        { (updateWeightPlus g i s).2 with zeroTolerance := z, q := t }) := by
  obtain ⟨uv, ld, lwc, lg, rt, ms, zt0, er, le, qq, gq⟩ := s
  simp only [updateWeightPlus]
  split_ifs <;> rfl

theorem uwm_hidden (g : ℕ → ℚ) (i : ℕ) (s : RPropState) (z t : ℚ) :
    updateWeightMinus g i { s with zeroTolerance := z, q := t } =
      ((updateWeightMinus g i s).1,
        { (updateWeightMinus g i s).2 with zeroTolerance := z, q := t }) := by
  obtain ⟨uv, ld, lwc, lg, rt, ms, zt0, er, le, qq, gq⟩ := s
  simp only [updateWeightMinus]

theorem uiwp_hidden (g : ℕ → ℚ) (i : ℕ) (s : RPropState) (z t : ℚ) :
    updateiWeightPlus g i { s with zeroTolerance := z, q := t } =
      ((updateiWeightPlus g i s).1,
        { (updateiWeightPlus g i s).2 with zeroTolerance := z, q := t }) := by
  obtain ⟨uv, ld, lwc, lg, rt, ms, zt0, er, le, qq, gq⟩ := s
  simp only [updateiWeightPlus, errorExceedsLast]
  split_ifs <;> rfl

theorem uiwm_hidden (g : ℕ → ℚ) (i : ℕ) (s : RPropState) (z t : ℚ) :
    updateiWeightMinus g i { s with zeroTolerance := z, q := t } =
      ((updateiWeightMinus g i s).1,
        { (updateiWeightMinus g i s).2 with zeroTolerance := z, q := t }) := by
  obtain ⟨uv, ld, lwc, lg, rt, ms, zt0, er, le, qq, gq⟩ := s
  simp only [updateiWeightMinus]

theorem jacobi_hidden (g : ℕ → ℚ) (i : ℕ) (s : RPropState) (z t : ℚ) :
    updateJacobiWeight g i { s with zeroTolerance := z, q := t } =
      Except.map (fun p => (p.1, { p.2 with zeroTolerance := z, q := t }))
        (updateJacobiWeight g i s) := by
  obtain ⟨uv, ld, lwc, lg, rt, ms, zt0, er, le, qq, gq⟩ := s
  cases gq <;>
    simp only [updateJacobiWeight, errorExceedsLast, Except.map] <;>
    split_ifs <;> rfl

/-- C9: determinism / no hidden state.  `updateWeight` reads nothing
outside the given arguments and the listed state (`updateValues`,
`lastDelta`, `lastWeightChange`, the `lastGradient` array, `error`,
`lastError`, the `q` counter — which in the code is the free global
`globalQ`, not the unused instance field — plus the configuration
`rpropType`/`maxStep`): two states differing only in the never-read fields
`zeroTolerance` and `this.q` produce the same weight change, the same
thrown error, and the same evolution of every other field. -/
theorem updateWeight_deterministic (g : ℕ → ℚ) (i : ℕ) (d : ℚ)
    (s : RPropState) (z t : ℚ) :
    updateWeight g i d { s with zeroTolerance := z, q := t } =
      Except.map (fun p => (p.1, { p.2 with zeroTolerance := z, q := t }))
        (updateWeight g i d s) := by
  by_cases hd : d > 0
  · simp [updateWeight, hd, Except.map]
  by_cases h1 : s.rpropType = RPROPTypep
  · have h1a : ({ s with zeroTolerance := z, q := t } : RPropState).rpropType
        = RPROPTypep := h1
    rw [updateWeight_plus_dispatch g i d { s with zeroTolerance := z, q := t } hd h1a,
      updateWeight_plus_dispatch g i d s hd h1, uwp_hidden g i s z t]
    rfl
  by_cases h2 : s.rpropType = RPROPTypem
  · have h2a : ({ s with zeroTolerance := z, q := t } : RPropState).rpropType
        = RPROPTypem := h2
    rw [updateWeight_minus_dispatch g i d { s with zeroTolerance := z, q := t } hd h2a,
      updateWeight_minus_dispatch g i d s hd h2, uwm_hidden g i s z t]
    rfl
  by_cases h3 : s.rpropType = iRPROPTypep
  · have h3a : ({ s with zeroTolerance := z, q := t } : RPropState).rpropType
        = iRPROPTypep := h3
    rw [updateWeight_iplus_dispatch g i d { s with zeroTolerance := z, q := t } hd h3a,
      updateWeight_iplus_dispatch g i d s hd h3, uiwp_hidden g i s z t]
    rfl
  by_cases h4 : s.rpropType = iRPROPTypem
  · have h4a : ({ s with zeroTolerance := z, q := t } : RPropState).rpropType
        = iRPROPTypem := h4
    rw [updateWeight_iminus_dispatch g i d { s with zeroTolerance := z, q := t } hd h4a,
      updateWeight_iminus_dispatch g i d s hd h4, uiwm_hidden g i s z t]
    rfl
  by_cases h5 : s.rpropType = ARPROPType
  · have h5a : ({ s with zeroTolerance := z, q := t } : RPropState).rpropType
        = ARPROPType := h5
    rw [updateWeight_arprop_dispatch g i d { s with zeroTolerance := z, q := t } hd h5a,
      updateWeight_arprop_dispatch g i d s hd h5, jacobi_hidden g i s z t]
    cases hres : updateJacobiWeight g i s <;> simp [hres, Except.map]
  · have h1a : ¬ ({ s with zeroTolerance := z, q := t } : RPropState).rpropType
        = RPROPTypep := h1
    have h2a : ¬ ({ s with zeroTolerance := z, q := t } : RPropState).rpropType
        = RPROPTypem := h2
    have h3a : ¬ ({ s with zeroTolerance := z, q := t } : RPropState).rpropType
        = iRPROPTypep := h3
    have h4a : ¬ ({ s with zeroTolerance := z, q := t } : RPropState).rpropType
        = iRPROPTypem := h4
    have h5a : ¬ ({ s with zeroTolerance := z, q := t } : RPropState).rpropType
        = ARPROPType := h5
    rw [updateWeight_unknown_dispatch g i d { s with zeroTolerance := z, q := t }
        hd h1a h2a h3a h4a h5a,
      updateWeight_unknown_dispatch g i d s hd h1 h2 h3 h4 h5]
    rfl

/-- Evaluation: the first RPROPm call with a gradient of exactly `0` at an
untouched index returns a weight change of `0` (not of magnitude
`DELTA_MIN`), while the step entry still becomes `DELTA_MIN`. -/
theorem rpropm_zero_gradient_eval :
    updateWeight zeroGrad 0 0 (mkWithType RPROPTypem) =
      .ok (0, { mkWithType RPROPTypem with
        lastGradient := Function.update (mkWithType RPROPTypem).lastGradient 0 0
        lastDelta := Function.update (mkWithType RPROPTypem).lastDelta 0 DELTA_MIN
        lastWeightChange :=
          Function.update (mkWithType RPROPTypem).lastWeightChange 0 0 }) := by
  rw [updateWeight_minus_dispatch zeroGrad 0 0 (mkWithType RPROPTypem)
    (by norm_num) rfl]
  norm_num [updateWeightMinus, mkWithType, mkResilientPropagation, sign,
    zeroGrad, DEFAULT_ZERO_TOLERANCE, NEGATIVE_ETA, DELTA_MIN, max_def]

/-- The method `updateWeightMinus` never reads `updateValues`: replacing that array
changes nothing observable. -/
theorem uwm_uv_indep (g : ℕ → ℚ) (i : ℕ) (s : RPropState) (f : ℕ → ℚ) :
    updateWeightMinus g i { s with updateValues := f } =
      ((updateWeightMinus g i s).1,
        { (updateWeightMinus g i s).2 with updateValues := f }) := by
  obtain ⟨uv, ld, lwc, lg, rt, ms, zt, er, le, qq, gq⟩ := s
  simp only [updateWeightMinus]

/-- C10 counterexample: the claim's "weight change of magnitude exactly
`1e-6`" fails for a zero gradient — the first RPROPm call with
`gradients[0] = 0` and `lastGradient[0] = 0` returns `0`, whose magnitude
is not `DELTA_MIN`. -/
theorem rpropm_initial_update_counterexample :
    (mkWithType RPROPTypem).lastGradient 0 = 0 ∧
    updateWeight zeroGrad 0 0 (mkWithType RPROPTypem) =
      .ok (0, { mkWithType RPROPTypem with
        lastGradient := Function.update (mkWithType RPROPTypem).lastGradient 0 0
        lastDelta := Function.update (mkWithType RPROPTypem).lastDelta 0 DELTA_MIN
        lastWeightChange :=
          Function.update (mkWithType RPROPTypem).lastWeightChange 0 0 }) ∧
    |(0 : ℚ)| ≠ DELTA_MIN := by
  refine ⟨rfl, rpropm_zero_gradient_eval, ?_⟩
  norm_num [DELTA_MIN]

/-- C10 amended: for RPROPm the `initialUpdate` parameter never influences
the returned weight change (the variant reads only `lastDelta`, which the
constructor zeroes): changing the `updateValues` array changes nothing
observable; and the first call at an index with `lastGradient[i] = 0` and a
gradient that is not within zero tolerance of `0` computes
`delta = max(0 * NEGATIVE_ETA, DELTA_MIN) = 1e-6` and returns a change of
magnitude exactly `1e-6`, whatever `initialUpdate` and `maxStep` were. -/
theorem rpropm_initial_update_amended (g : ℕ → ℚ) (i : ℕ) (d : ℚ)
    (s : RPropState) (f : ℕ → ℚ) (u m : ℚ)
    (ht : s.rpropType = RPROPTypem) (hsg : sign (g i) ≠ 0) :
    updateWeight g i d { s with updateValues := f } =
      Except.map (fun p => (p.1, { p.2 with updateValues := f }))
        (updateWeight g i d s) ∧
    updateWeight g i 0 { mkResilientPropagation u m with rpropType := RPROPTypem } =
      .ok (sign (g i) * DELTA_MIN,
        { mkResilientPropagation u m with
          rpropType := RPROPTypem
          lastGradient := Function.update (fun _ => 0) i (g i)
          lastDelta := Function.update (fun _ => 0) i DELTA_MIN
          lastWeightChange := Function.update (fun _ => 0) i (sign (g i) * DELTA_MIN) }) ∧
    |sign (g i) * DELTA_MIN| = DELTA_MIN := by
  refine ⟨?_, ?_, ?_⟩
  · by_cases hd : d > 0
    · simp [updateWeight, hd, Except.map]
    · have hta : ({ s with updateValues := f } : RPropState).rpropType
          = RPROPTypem := ht
      rw [updateWeight_minus_dispatch g i d { s with updateValues := f } hd hta,
        updateWeight_minus_dispatch g i d s hd ht, uwm_uv_indep g i s f]
      rfl
  · rw [updateWeight_minus_dispatch g i 0
      { mkResilientPropagation u m with rpropType := RPROPTypem } (by norm_num) rfl]
    norm_num [updateWeightMinus, mkResilientPropagation, sign_zero,
      NEGATIVE_ETA, DELTA_MIN, max_def]
  · rcases sign_trichotomy (g i) with h | h | h
    · exact absurd h hsg
    · rw [h]
      norm_num [DELTA_MIN]
    · rw [h]
      norm_num [DELTA_MIN]

/-- C10 amended witness: gradient `1` at index `0`, non-default
construction parameters `initialUpdate = 2`, `maxStep = 9`, and an
arbitrary replacement `updateValues` array on a mid-training RPROPm
state. -/
theorem rpropm_initial_update_amended_witness :
    updateWeight scenarioGrad 0 0 { rpropmRevState with updateValues := fun _ => 7 } =
      Except.map (fun p => (p.1, { p.2 with updateValues := fun _ => 7 }))
        (updateWeight scenarioGrad 0 0 rpropmRevState) ∧
    updateWeight scenarioGrad 0 0
        { mkResilientPropagation 2 9 with rpropType := RPROPTypem } =
      .ok (sign (scenarioGrad 0) * DELTA_MIN,
        { mkResilientPropagation 2 9 with
          rpropType := RPROPTypem
          lastGradient := Function.update (fun _ => 0) 0 (scenarioGrad 0)
          lastDelta := Function.update (fun _ => 0) 0 DELTA_MIN
          lastWeightChange :=
            Function.update (fun _ => 0) 0 (sign (scenarioGrad 0) * DELTA_MIN) }) ∧
    |sign (scenarioGrad 0) * DELTA_MIN| = DELTA_MIN :=
  rpropm_initial_update_amended scenarioGrad 0 0 rpropmRevState (fun _ => 7) 2 9
    rfl (by norm_num [scenarioGrad, sign, DEFAULT_ZERO_TOLERANCE])

/-- Evaluation: the RPROPm reversal call (gradient `1` against previous
gradient `-1`, step `0.1`, previous change `0.1`) returns `+0.05`. -/
theorem rpropm_reversal_eval :
    updateWeight scenarioGrad 0 0 rpropmRevState = .ok (1/20, rpropmRevState1) := by
  rw [updateWeight_minus_dispatch scenarioGrad 0 0 rpropmRevState (by norm_num) rfl]
  norm_num [updateWeightMinus, rpropmRevState, rpropmRevState1, mkWithType,
    mkResilientPropagation, sign, scenarioGrad, DEFAULT_ZERO_TOLERANCE,
    NEGATIVE_ETA, DELTA_MIN, max_def]

/-- Evaluation: ARPROP with a declared global `q = 1`, gradient `-1` whose
sign matches the previous gradient `-1`, and a worsened error (`1 > 0`):
the structural part computes `-0.12` but the override returns `+0.06`. -/
theorem arprop_override_eval :
    updateWeight negGrad 0 0 arpropDeclaredQState =
      .ok (6/100, arpropDeclaredQState1) := by
  rw [updateWeight_arprop_dispatch negGrad 0 0 arpropDeclaredQState
    (by norm_num) rfl]
  norm_num [updateJacobiWeight, errorExceedsLast, arpropDeclaredQState,
    arpropWorseState, arpropDeclaredQState1, mkWithType, mkResilientPropagation,
    sign, negGrad, DEFAULT_ZERO_TOLERANCE, POSITIVE_ETA,
    DEFAULT_INITIAL_UPDATE, DEFAULT_MAX_STEP, min_def]

/-- C1 counterexample: (a) RPROPm on a sign reversal returns
`sign(gradient) * delta = 0.05`, which is neither `0` nor the negation
`-0.1` of the previously recorded weight change; (b) ARPROP under a
worsened error (with the global `q` declared and equal to `1`) returns
`+0.06` for a sign-retaining *negative* gradient, breaking the
`sign(weightChange) = sign(gradient)` rule for `change ≥ 0`. -/
theorem rprop_sign_rule_counterexample :
    (sign (scenarioGrad 0 * rpropmRevState.lastGradient 0) < 0 ∧
      updateWeight scenarioGrad 0 0 rpropmRevState = .ok (1/20, rpropmRevState1) ∧
      ¬ ((1/20 : ℚ) = 0 ∨ (1/20 : ℚ) = -(rpropmRevState.lastWeightChange 0))) ∧
    (0 ≤ sign (negGrad 0 * arpropDeclaredQState.lastGradient 0) ∧
      updateWeight negGrad 0 0 arpropDeclaredQState =
        .ok (6/100, arpropDeclaredQState1) ∧
      sign (6/100 : ℚ) ≠ sign (negGrad 0)) := by
  refine ⟨⟨?_, rpropm_reversal_eval, ?_⟩, ?_, arprop_override_eval, ?_⟩
  · norm_num [scenarioGrad, rpropmRevState, mkWithType, mkResilientPropagation,
      sign, DEFAULT_ZERO_TOLERANCE]
  · norm_num [rpropmRevState, mkWithType, mkResilientPropagation]
  · norm_num [negGrad, arpropDeclaredQState, arpropWorseState, mkWithType,
      mkResilientPropagation, sign, DEFAULT_ZERO_TOLERANCE]
  · have h3 : negGrad 0 = -1 := rfl
    have h1 : ¬ |(6/100 : ℚ)| < DEFAULT_ZERO_TOLERANCE := by
      rw [abs_of_pos (by norm_num : (0:ℚ) < 6/100)]
      norm_num [DEFAULT_ZERO_TOLERANCE]
    have h2 : ¬ |(-1 : ℚ)| < DEFAULT_ZERO_TOLERANCE := by
      rw [abs_neg, abs_one]
      norm_num [DEFAULT_ZERO_TOLERANCE]
    rw [h3, sign_eq_one _ h1 (by norm_num),
      sign_eq_neg_one _ h2 (by norm_num)]
    norm_num

/-- C1 amended: with the step state in its maintained range
(`DELTA_MIN ≤ updateValues[i]`, `DELTA_MIN ≤ maxStep`, and `lastDelta[i]`
either in range or at an untouched index) —
for RPROPp and iRPROPp, `sign(weightChange) = sign(gradients[i])` whenever
`change ≥ 0`, and on reversal RPROPp returns exactly the negation of the
previously recorded change while iRPROPp returns `0` or that negation;
for RPROPm and iRPROPm, `sign(weightChange) = sign(gradients[i])` in every
case (no back-tracking, so the reversal clause does not apply);
for ARPROP (free counter `q` undeclared) the call never returns a weight
change at all — it throws a `ReferenceError`. -/
theorem rprop_sign_rule_amended (s : RPropState) (g : ℕ → ℚ) (i : ℕ)
    (hms : DELTA_MIN ≤ s.maxStep)
    (huv : DELTA_MIN ≤ s.updateValues i)
    (hld : DELTA_MIN ≤ s.lastDelta i ∨ s.lastGradient i = 0)
    (hgq : s.globalQ = none) :
    (0 ≤ sign (g i * s.lastGradient i) →
      sign (wcOf (updateWeight g i 0 { s with rpropType := RPROPTypep }))
        = sign (g i) ∧
      sign (wcOf (updateWeight g i 0 { s with rpropType := iRPROPTypep }))
        = sign (g i)) ∧
    (sign (g i * s.lastGradient i) < 0 →
      wcOf (updateWeight g i 0 { s with rpropType := RPROPTypep })
        = -(s.lastWeightChange i) ∧
      (wcOf (updateWeight g i 0 { s with rpropType := iRPROPTypep }) = 0 ∨
        wcOf (updateWeight g i 0 { s with rpropType := iRPROPTypep })
          = -(s.lastWeightChange i))) ∧
    sign (wcOf (updateWeight g i 0 { s with rpropType := RPROPTypem }))
      = sign (g i) ∧
    sign (wcOf (updateWeight g i 0 { s with rpropType := iRPROPTypem }))
      = sign (g i) ∧
    updateWeight g i 0 { s with rpropType := ARPROPType } =
      .error "ReferenceError: q is not defined" := by
  have hd : ¬ (0:ℚ) > 0 := by norm_num
  have eP : wcOf (updateWeight g i 0 { s with rpropType := RPROPTypep }) =
      (updateWeightPlus g i { s with rpropType := RPROPTypep }).1 := by
    rw [updateWeight_plus_dispatch g i 0 { s with rpropType := RPROPTypep } hd rfl]
    rfl
  have eIP : wcOf (updateWeight g i 0 { s with rpropType := iRPROPTypep }) =
      (updateiWeightPlus g i { s with rpropType := iRPROPTypep }).1 := by
    rw [updateWeight_iplus_dispatch g i 0 { s with rpropType := iRPROPTypep } hd rfl]
    rfl
  have eM : wcOf (updateWeight g i 0 { s with rpropType := RPROPTypem }) =
      (updateWeightMinus g i { s with rpropType := RPROPTypem }).1 := by
    rw [updateWeight_minus_dispatch g i 0 { s with rpropType := RPROPTypem } hd rfl]
    rfl
  have eIM : wcOf (updateWeight g i 0 { s with rpropType := iRPROPTypem }) =
      (updateiWeightMinus g i { s with rpropType := iRPROPTypem }).1 := by
    rw [updateWeight_iminus_dispatch g i 0 { s with rpropType := iRPROPTypem } hd rfl]
    rfl
  have eA : updateWeight g i 0 { s with rpropType := ARPROPType } =
      .error "ReferenceError: q is not defined" := by
    rw [updateWeight_arprop_dispatch g i 0 { s with rpropType := ARPROPType } hd rfl,
      jacobi_none_error g i { s with rpropType := ARPROPType } hgq]
  refine ⟨?_, ?_, ?_, ?_, eA⟩
  · intro hc0
    rw [eP, uwp_wc, eIP, uiwp_wc]
    dsimp only
    by_cases hc : sign (g i * s.lastGradient i) > 0
    · rw [if_pos hc, if_pos hc]
      constructor <;> exact sign_mul_delta _ _ (grow_clamp_lower _ _ huv hms)
    · have hcz : ¬ sign (g i * s.lastGradient i) < 0 := not_lt.mpr hc0
      rw [if_neg hc, if_neg hcz, if_neg hc, if_neg hcz]
      constructor <;> exact sign_mul_delta _ _ huv
  · intro hcneg
    have hc : ¬ sign (g i * s.lastGradient i) > 0 := not_lt.mpr hcneg.le
    rw [eP, uwp_wc, eIP, uiwp_wc]
    dsimp only
    rw [if_neg hc, if_pos hcneg, if_neg hc, if_pos hcneg]
    refine ⟨rfl, ?_⟩
    cases hE : errorExceedsLast { s with rpropType := iRPROPTypep } with
    | false =>
        left
        simp [hE]
    | true =>
        right
        simp [hE]
  · rw [eM, uwm_wc]
    dsimp only
    exact sign_mul_delta _ _ (minus_delta_ge g i s hms hld)
  · rw [eIM, uiwm_wc]
    dsimp only
    exact sign_mul_delta _ _ (minus_delta_ge g i s hms hld)

/-- C1 amended witness at the concrete reversal state `rpropmRevState`
(step state `0.1`, previous gradient `-1`, previous change `0.1`,
gradient `1`). -/
theorem rprop_sign_rule_amended_witness :
    (0 ≤ sign (scenarioGrad 0 * rpropmRevState.lastGradient 0) →
      sign (wcOf (updateWeight scenarioGrad 0 0
          { rpropmRevState with rpropType := RPROPTypep }))
        = sign (scenarioGrad 0) ∧
      sign (wcOf (updateWeight scenarioGrad 0 0
          { rpropmRevState with rpropType := iRPROPTypep }))
        = sign (scenarioGrad 0)) ∧
    (sign (scenarioGrad 0 * rpropmRevState.lastGradient 0) < 0 →
      wcOf (updateWeight scenarioGrad 0 0
          { rpropmRevState with rpropType := RPROPTypep })
        = -(rpropmRevState.lastWeightChange 0) ∧
      (wcOf (updateWeight scenarioGrad 0 0
          { rpropmRevState with rpropType := iRPROPTypep }) = 0 ∨
        wcOf (updateWeight scenarioGrad 0 0
            { rpropmRevState with rpropType := iRPROPTypep })
          = -(rpropmRevState.lastWeightChange 0))) ∧
    sign (wcOf (updateWeight scenarioGrad 0 0
        { rpropmRevState with rpropType := RPROPTypem }))
      = sign (scenarioGrad 0) ∧
    sign (wcOf (updateWeight scenarioGrad 0 0
        { rpropmRevState with rpropType := iRPROPTypem }))
      = sign (scenarioGrad 0) ∧
    updateWeight scenarioGrad 0 0 { rpropmRevState with rpropType := ARPROPType } =
      .error "ReferenceError: q is not defined" :=
  rprop_sign_rule_amended rpropmRevState scenarioGrad 0
    (by norm_num [rpropmRevState, mkWithType, mkResilientPropagation,
      DELTA_MIN, DEFAULT_MAX_STEP])
    (by norm_num [rpropmRevState, mkWithType, mkResilientPropagation,
      DELTA_MIN, DEFAULT_INITIAL_UPDATE])
    (Or.inl (by norm_num [rpropmRevState, mkWithType, mkResilientPropagation,
      DELTA_MIN]))
    rfl

end EncogRProp
